import Mathlib

/-!
# Verification of the dawarich-cleaner GPS outlier detector

Shallow embedding of the two outlier-detector modules of the repository:

* `App` — `app/services/outlier_detector.py` (units: meters and m/s; the module
  used by the running service; has the Pass-3 neighbor-artifact filter).
* `Src` — `src/outlier_detector.py` (units: kilometers and km/h; the legacy
  worker module; normalizes millisecond timestamps, has a separate spike flag
  and the `flying_point` label, and no Pass 3).

Python floats are modeled as exact real numbers; the float value
`float("inf")` returned by the speed helpers is modeled as `(⊤ : EReal)`.
Python's `int(x)` on a float truncates toward zero (`pyTrunc`).  Python's
`sorted`/`list.sort` are stable sorts on the given key; they are modeled with
`List.insertionSort` on the key's `≤` relation, which is stable and therefore
produces the same list.  Python `round(x, k)` applied inside the diagnostic
`details` payloads is display formatting only and is kept unrounded here.
-/

noncomputable section

open Classical Real

/-- Python `int(x)` for a float `x`: truncation toward zero. -/
def pyTrunc (x : ℝ) : ℤ := if 0 ≤ x then ⌊x⌋ else ⌈x⌉

/-- Python `math.radians`. -/
def radians (x : ℝ) : ℝ := x * (Real.pi / 180)

/-- Input GPS point after the type coercions at the top of `detect_outliers`
(`id` integer, `latitude`/`longitude`/`timestamp` floats). -/
structure GpsPoint where
  id : ℤ
  latitude : ℝ
  longitude : ℝ
  timestamp : ℝ

/-- The `details` dict built by Pass 1 (both modules build the same one). -/
structure Pass1Details where
  prev_timestamp : ℤ
  cur_timestamp : ℤ

/-- The `details` dict built by Pass 2 of `app/services/outlier_detector.py`
(distances in meters, speeds in m/s; `none` stands for a `None` entry written
for an infinite speed). -/
structure AppPass2Details where
  distance_from_prev_m : ℝ
  distance_to_next_m : ℝ
  direct_route_m : ℝ
  time_to_point_sec : ℤ
  time_from_point_sec : ℤ
  speed_to_point_ms : Option ℝ
  speed_from_point_ms : Option ℝ
  speed_direct_ms : Option ℝ
  max_speed_ms : ℝ
  max_distance_m : ℝ
  max_jump_dt_sec : ℝ
  speed_flag : Bool
  jump_flag : Bool
  distance_factor : ℝ
  detour_factor : ℝ
  speed_factor : ℝ

/-- The `details` dict built by Pass 2 of `src/outlier_detector.py`
(distances in kilometers, speeds in km/h). -/
structure SrcPass2Details where
  distance_from_prev_km : ℝ
  distance_to_next_km : ℝ
  direct_route_km : ℝ
  time_to_point_sec : ℤ
  time_from_point_sec : ℤ
  speed_to_point_kmh : Option ℝ
  speed_from_point_kmh : Option ℝ
  speed_direct_kmh : Option ℝ
  max_speed_kmh : ℝ
  max_distance_km : ℝ
  max_jump_dt_sec : ℝ
  speed_flag : Bool
  jump_flag : Bool
  spike_flag : Bool
  distance_factor : ℝ
  detour_factor : ℝ
  speed_factor : ℝ

/-- The `detection_details` payload of a flagged point. -/
inductive DetectionDetails where
  | pass1 (d : Pass1Details)
  | appPass2 (d : AppPass2Details)
  | srcPass2 (d : SrcPass2Details)

/-- The outlier dict appended by `add_outlier` in either module. -/
structure FlaggedPoint where
  point_id : ℤ
  latitude : ℝ
  longitude : ℝ
  timestamp : ℤ
  detection_reason : String
  detection_details : DetectionDetails
  confidence_score : ℝ
  previous_point_id : Option ℤ
  next_point_id : Option ℤ

/-- The closure `add_outlier(cur, prev, nxt, reason, details, confidence)`;
both modules define it with the same body.  `prev`/`nxt` are `None` or a
point dict (a nonempty dict, hence truthy). -/
def add_outlier (cur : GpsPoint) (prev nxt : Option GpsPoint) (reason : String)
    (details : DetectionDetails) (confidence : ℝ) : FlaggedPoint :=
  { point_id := cur.id
    latitude := cur.latitude
    longitude := cur.longitude
    timestamp := pyTrunc cur.timestamp
    detection_reason := reason
    detection_details := details
    confidence_score := max 0 (min 1 confidence)
    previous_point_id := prev.map (·.id)
    next_point_id := nxt.map (·.id) }

/-- The haversine central angle `c` computed identically by both modules'
`haversine_distance` (they differ only in the Earth-radius factor). -/
def central_angle (lat1 lon1 lat2 lon2 : ℝ) : ℝ :=
  let lat1_rad := radians lat1
  let lat2_rad := radians lat2
  let dlat := radians (lat2 - lat1)
  let dlon := radians (lon2 - lon1)
  let a := Real.sin (dlat / 2) ^ 2 +
    Real.cos lat1_rad * Real.cos lat2_rad * Real.sin (dlon / 2) ^ 2
  2 * Real.arcsin (Real.sqrt a)

/-- `sorted(normalized, key=lambda p: p["timestamp"])`: a stable sort on the
timestamp; both modules perform it. -/
def sortPts (l : List GpsPoint) : List GpsPoint :=
  l.insertionSort (fun a b => a.timestamp ≤ b.timestamp)

/-- Pass 1 of both modules, as the walk over consecutive sorted pairs:
`prev` is the element before `cur` and the point after `cur` (if any) becomes
`next`. -/
def pass1Aux : GpsPoint → List GpsPoint → List FlaggedPoint
  | _, [] => []
  | prev, cur :: rest =>
    (if cur.timestamp ≤ prev.timestamp then
      [add_outlier cur (some prev) rest.head? "non_increasing_timestamp"
        (DetectionDetails.pass1
          ⟨pyTrunc prev.timestamp, pyTrunc cur.timestamp⟩) 0.9]
    else []) ++ pass1Aux cur rest

/-- `for i in range(1, len(pts)): if pts[i].timestamp <= pts[i-1].timestamp: …` -/
def pass1 : List GpsPoint → List FlaggedPoint
  | [] => []
  | p :: rest => pass1Aux p rest

namespace App

/-- `haversine_distance` of `app/services/outlier_detector.py`: meters,
Earth radius 6371000.0 m. -/
def haversine_distance (lat1 lon1 lat2 lon2 : ℝ) : ℝ :=
  6371000 * central_angle lat1 lon1 lat2 lon2

/-- Distance between two point dicts, as Pass 2 computes it. -/
def pointDist (a b : GpsPoint) : ℝ :=
  haversine_distance a.latitude a.longitude b.latitude b.longitude

/-- `calculate_speed` (m/s): `float("inf")`, i.e. `⊤`, for a non-positive
time delta, otherwise distance over the delta. -/
def calculate_speed (p1 p2 : GpsPoint) : EReal :=
  let dt := p2.timestamp - p1.timestamp
  if dt ≤ 0 then ⊤ else ((pointDist p1 p2 / dt : ℝ) : EReal)

/-- `speed_to = calculate_speed(prev, cur) if dt_prev > 0 else float("inf")`. -/
def speed_to (prev cur : GpsPoint) : EReal :=
  if 0 < cur.timestamp - prev.timestamp then calculate_speed prev cur else ⊤

/-- `speed_from = calculate_speed(cur, nxt) if dt_next > 0 else float("inf")`. -/
def speed_from (cur nxt : GpsPoint) : EReal :=
  if 0 < nxt.timestamp - cur.timestamp then calculate_speed cur nxt else ⊤

/-- `speed_direct = calculate_speed(prev, nxt) if dt_prevnext > 0 else inf`. -/
def speed_direct (prev nxt : GpsPoint) : EReal :=
  if 0 < nxt.timestamp - prev.timestamp then calculate_speed prev nxt else ⊤

/-- Derived threshold `max_jump_dt_sec = max(1.0, min(10.0, max_distance_m / 50))`. -/
def max_jump_dt_sec (max_distance_m : ℝ) : ℝ :=
  max 1 (min 10 (max_distance_m / 50))

/-- Signal A, `speed_flag`: an impossible speed entering or leaving the point
(tolerance factor 1.15). -/
def speedCond (max_speed_ms : ℝ) (prev cur nxt : GpsPoint) : Prop :=
  ((max_speed_ms * 1.15 : ℝ) : EReal) < speed_to prev cur ∨
  ((max_speed_ms * 1.15 : ℝ) : EReal) < speed_from cur nxt

/-- The spike pattern inside signal B: far from both neighbors while the
neighbors are close to each other (`spike_far_m = max_distance_m`,
`spike_neighbor_close_m = max(max_distance_m * 2, 10)`). -/
def spikeCond (max_distance_m : ℝ) (prev cur nxt : GpsPoint) : Prop :=
  max_distance_m < pointDist prev cur ∧
  max_distance_m < pointDist cur nxt ∧
  pointDist prev nxt < max (max_distance_m * 2) 10

/-- Signal B, `jump_flag`: a short-window big jump on either side, or the
spike pattern (`max_jump_m = max_distance_m`). -/
def jumpCond (max_distance_m : ℝ) (prev cur nxt : GpsPoint) : Prop :=
  (0 < cur.timestamp - prev.timestamp ∧
    cur.timestamp - prev.timestamp < max_jump_dt_sec max_distance_m ∧
    max_distance_m < pointDist prev cur) ∨
  (0 < nxt.timestamp - cur.timestamp ∧
    nxt.timestamp - cur.timestamp < max_jump_dt_sec max_distance_m ∧
    max_distance_m < pointDist cur nxt) ∨
  spikeCond max_distance_m prev cur nxt

/-- `distance_factor = min(1.0, avg_far_m / max(spike_far_m * 2.0, 0.001))`. -/
def distance_factor (max_distance_m : ℝ) (prev cur nxt : GpsPoint) : ℝ :=
  min 1 (((pointDist prev cur + pointDist cur nxt) / 2) /
    max (max_distance_m * 2) 0.001)

/-- `detour_factor = min(1.0, (detour_m / max(d_prev_next, 50.0)) / 5.0)`. -/
def detour_factor (prev cur nxt : GpsPoint) : ℝ :=
  min 1 ((((pointDist prev cur + pointDist cur nxt) - pointDist prev nxt) /
    max (pointDist prev nxt) 50) / 5)

/-- `max_req_speed = max(speed_to, speed_from)`. -/
def max_req_speed (prev cur nxt : GpsPoint) : EReal :=
  max (speed_to prev cur) (speed_from cur nxt)

/-- `speed_factor`: `0` unless `max_req_speed` is finite, else clamped
`(max_req_speed - max_speed_ms) / max(max_speed_ms, 1.0)`. -/
def speed_factor (max_speed_ms : ℝ) (prev cur nxt : GpsPoint) : ℝ :=
  if max_req_speed prev cur nxt = ⊤ then 0
  else min 1 (max 0
    (((max_req_speed prev cur nxt).toReal - max_speed_ms) / max max_speed_ms 1))

/-- The confidence computed by Pass 2 before `add_outlier` clamps it:
the weighted sum, then the two "high confidence for extreme cases" raises
(the first requires `jump_flag` and `detour_factor > 0.8`, the second
`jump_flag` and a required speed above `max_speed_ms * 2`). -/
def pass2Confidence (max_speed_ms max_distance_m : ℝ) (prev cur nxt : GpsPoint) : ℝ :=
  let c0 := 0.25 * distance_factor max_distance_m prev cur nxt +
    0.35 * detour_factor prev cur nxt + 0.40 * speed_factor max_speed_ms prev cur nxt
  let c1 := if jumpCond max_distance_m prev cur nxt ∧
      (0.8 : ℝ) < detour_factor prev cur nxt then max c0 0.85 else c0
  if jumpCond max_distance_m prev cur nxt ∧
      ((max_speed_ms * 2 : ℝ) : EReal) < max_req_speed prev cur nxt then
    max c1 0.9
  else c1

/-- The Pass-2 `details` dict (rounding of the displayed numbers omitted). -/
def pass2Details (max_speed_ms max_distance_m : ℝ) (prev cur nxt : GpsPoint) :
    AppPass2Details :=
  { distance_from_prev_m := pointDist prev cur
    distance_to_next_m := pointDist cur nxt
    direct_route_m := pointDist prev nxt
    time_to_point_sec := pyTrunc (cur.timestamp - prev.timestamp)
    time_from_point_sec := pyTrunc (nxt.timestamp - cur.timestamp)
    speed_to_point_ms :=
      if speed_to prev cur = ⊤ then none else some (speed_to prev cur).toReal
    speed_from_point_ms :=
      if speed_from cur nxt = ⊤ then none else some (speed_from cur nxt).toReal
    speed_direct_ms :=
      if speed_direct prev nxt = ⊤ then none else some (speed_direct prev nxt).toReal
    max_speed_ms := max_speed_ms
    max_distance_m := max_distance_m
    max_jump_dt_sec := max_jump_dt_sec max_distance_m
    speed_flag := decide (speedCond max_speed_ms prev cur nxt)
    jump_flag := decide (jumpCond max_distance_m prev cur nxt)
    distance_factor := distance_factor max_distance_m prev cur nxt
    detour_factor := detour_factor prev cur nxt
    speed_factor := speed_factor max_speed_ms prev cur nxt }

/-- One iteration of Pass 2 at an interior point: `None` when no signal
fires (`continue`), else the outlier appended by `add_outlier`, with the
single reason label `"speed_outlier" if speed_flag else "jump_outlier"`. -/
def pass2Step (max_speed_ms max_distance_m : ℝ) (prev cur nxt : GpsPoint) :
    Option FlaggedPoint :=
  if speedCond max_speed_ms prev cur nxt ∨ jumpCond max_distance_m prev cur nxt then
    some (add_outlier cur (some prev) (some nxt)
      (if speedCond max_speed_ms prev cur nxt then "speed_outlier" else "jump_outlier")
      (DetectionDetails.appPass2 (pass2Details max_speed_ms max_distance_m prev cur nxt))
      (pass2Confidence max_speed_ms max_distance_m prev cur nxt))
  else none

/-- `for i in range(1, len(pts) - 1): …` — Pass 2 over consecutive triples. -/
def pass2 (max_speed_ms max_distance_m : ℝ) : List GpsPoint → List FlaggedPoint
  | p :: c :: n :: rest =>
    (pass2Step max_speed_ms max_distance_m p c n).toList ++
      pass2 max_speed_ms max_distance_m (c :: n :: rest)
  | _ => []

/-- The mutable state of the Pass-3 walk: the accepted list and the two sets
(modeled as lists; only membership matters). -/
structure Pass3State where
  filtered : List FlaggedPoint
  outlier_ids : List ℤ
  neighbor_ids : List ℤ

/-- Python truthiness of an optional integer id (`if prev_id:`): `None` and
`0` are falsy. -/
def truthyId : Option ℤ → List ℤ
  | some k => if k ≠ 0 then [k] else []
  | none => []

/-- One iteration of the Pass-3 loop over the confidence-sorted candidates:
skip ids already added, skip marked neighbor artifacts, skip a candidate
adjacent to an accepted one of the same reason whose confidence is within
0.05; otherwise accept it, and when its confidence is at least 0.85 mark its
truthy neighbor ids as artifacts. -/
def pass3Step (st : Pass3State) (o : FlaggedPoint) : Pass3State :=
  if o.point_id ∈ st.outlier_ids then st
  else if o.point_id ∈ st.neighbor_ids then st
  else if st.filtered.any (fun other =>
      (o.previous_point_id == some other.point_id ||
        o.next_point_id == some other.point_id) &&
      o.detection_reason == other.detection_reason &&
      decide (o.confidence_score ≤ other.confidence_score + 0.05)) then st
  else
    { filtered := st.filtered ++ [o]
      outlier_ids := o.point_id :: st.outlier_ids
      neighbor_ids :=
        if 0.85 ≤ o.confidence_score then
          truthyId o.previous_point_id ++ truthyId o.next_point_id ++
            st.neighbor_ids
        else st.neighbor_ids }

/-- `outliers.sort(key=confidence_score, reverse=True)`: a stable descending
sort on the confidence. -/
def sortByConfDesc (l : List FlaggedPoint) : List FlaggedPoint :=
  l.insertionSort (fun a b => b.confidence_score ≤ a.confidence_score)

/-- `filtered_outliers.sort(key=point_id)`. -/
def sortByPointId (l : List FlaggedPoint) : List FlaggedPoint :=
  l.insertionSort (fun a b => a.point_id ≤ b.point_id)

/-- Pass 3: sort candidates by confidence (strongest first), walk them with
`pass3Step` starting from empty state, and restore point-id order. -/
def pass3 (outliers : List FlaggedPoint) : List FlaggedPoint :=
  sortByPointId (((sortByConfDesc outliers).foldl pass3Step ⟨[], [], []⟩).filtered)

/-- The input-normalization loop of `app/services/outlier_detector.py`:
type coercions only (`int(id)`, `float(lat)`, `float(lon)`, `float(ts)`) —
this module performs no millisecond-to-second conversion. -/
def normalizePoint (p : GpsPoint) : GpsPoint :=
  { id := p.id, latitude := p.latitude, longitude := p.longitude,
    timestamp := p.timestamp }

/-- `detect_outliers(points, max_speed_ms=50, max_distance_m=50)` of
`app/services/outlier_detector.py`. -/
def detect_outliers (points : List GpsPoint)
    (max_speed_ms : ℝ := 50) (max_distance_m : ℝ := 50) : List FlaggedPoint :=
  if points.length < 3 then []
  else
    let pts := sortPts (points.map normalizePoint)
    pass3 (pass1 pts ++ pass2 max_speed_ms max_distance_m pts)

end App

namespace Src

/-- `haversine_distance` of `src/outlier_detector.py`: kilometers,
Earth radius 6371.0 km. -/
def haversine_distance (lat1 lon1 lat2 lon2 : ℝ) : ℝ :=
  6371 * central_angle lat1 lon1 lat2 lon2

/-- Distance between two point dicts, in kilometers. -/
def pointDist (a b : GpsPoint) : ℝ :=
  haversine_distance a.latitude a.longitude b.latitude b.longitude

/-- `_normalize_timestamp_to_seconds(ts)`: treat an integer timestamp above
`100_000_000_000` as milliseconds. -/
def normalize_timestamp_to_seconds (ts : ℤ) : ℝ :=
  if 100000000000 < ts then (ts : ℝ) / 1000 else (ts : ℝ)

/-- The input-normalization loop of `src/outlier_detector.py`:
`ts_raw = int(p["timestamp"])`, then the millisecond heuristic. -/
def normalizePoint (p : GpsPoint) : GpsPoint :=
  { id := p.id, latitude := p.latitude, longitude := p.longitude,
    timestamp := normalize_timestamp_to_seconds (pyTrunc p.timestamp) }

/-- `calculate_speed` (km/h): `float("inf")`, i.e. `⊤`, for a non-positive
time delta, otherwise `distance_km / (dt_sec / 3600.0)`. -/
def calculate_speed (p1 p2 : GpsPoint) : EReal :=
  let dt := p2.timestamp - p1.timestamp
  if dt ≤ 0 then ⊤ else ((pointDist p1 p2 / (dt / 3600) : ℝ) : EReal)

/-- `speed_to = calculate_speed(prev, cur) if dt_prev > 0 else float("inf")`. -/
def speed_to (prev cur : GpsPoint) : EReal :=
  if 0 < cur.timestamp - prev.timestamp then calculate_speed prev cur else ⊤

/-- `speed_from = calculate_speed(cur, nxt) if dt_next > 0 else float("inf")`. -/
def speed_from (cur nxt : GpsPoint) : EReal :=
  if 0 < nxt.timestamp - cur.timestamp then calculate_speed cur nxt else ⊤

/-- `speed_direct = calculate_speed(prev, nxt) if dt_prevnext > 0 else inf`. -/
def speed_direct (prev nxt : GpsPoint) : EReal :=
  if 0 < nxt.timestamp - prev.timestamp then calculate_speed prev nxt else ⊤

/-- Signal A, `speed_flag` (tolerance factor 1.15). -/
def speedCond (max_speed_kmh : ℝ) (prev cur nxt : GpsPoint) : Prop :=
  ((max_speed_kmh * 1.15 : ℝ) : EReal) < speed_to prev cur ∨
  ((max_speed_kmh * 1.15 : ℝ) : EReal) < speed_from cur nxt

/-- Signal B, `jump_flag`: a short-window big jump on either side
(`max_jump_km = max_distance_km`, fixed `max_jump_dt_sec = 10.0`). -/
def jumpCond (max_distance_km : ℝ) (prev cur nxt : GpsPoint) : Prop :=
  (0 < cur.timestamp - prev.timestamp ∧
    cur.timestamp - prev.timestamp < 10 ∧
    max_distance_km < pointDist prev cur) ∨
  (0 < nxt.timestamp - cur.timestamp ∧
    nxt.timestamp - cur.timestamp < 10 ∧
    max_distance_km < pointDist cur nxt)

/-- Signal C, `spike_flag` (flying point): far from both neighbors, neighbors
close to each other (`spike_far_km = max_distance_km`,
`spike_neighbor_close_km = max_distance_km * 2`). -/
def spikeCond (max_distance_km : ℝ) (prev cur nxt : GpsPoint) : Prop :=
  max_distance_km < pointDist prev cur ∧
  max_distance_km < pointDist cur nxt ∧
  pointDist prev nxt < max_distance_km * 2

/-- `distance_factor = min(1.0, avg_far_km / max(spike_far_km * 2.0, 0.001))`. -/
def distance_factor (max_distance_km : ℝ) (prev cur nxt : GpsPoint) : ℝ :=
  min 1 (((pointDist prev cur + pointDist cur nxt) / 2) /
    max (max_distance_km * 2) 0.001)

/-- `detour_factor = min(1.0, (detour_km / max(d_prev_next, 0.05)) / 5.0)`. -/
def detour_factor (prev cur nxt : GpsPoint) : ℝ :=
  min 1 ((((pointDist prev cur + pointDist cur nxt) - pointDist prev nxt) /
    max (pointDist prev nxt) 0.05) / 5)

/-- `max_req_speed = max(speed_to, speed_from)`. -/
def max_req_speed (prev cur nxt : GpsPoint) : EReal :=
  max (speed_to prev cur) (speed_from cur nxt)

/-- `speed_factor`: `0` unless `max_req_speed` is finite. -/
def speed_factor (max_speed_kmh : ℝ) (prev cur nxt : GpsPoint) : ℝ :=
  if max_req_speed prev cur nxt = ⊤ then 0
  else min 1 (max 0
    (((max_req_speed prev cur nxt).toReal - max_speed_kmh) / max max_speed_kmh 1))

/-- The confidence computed by Pass 2 before clamping: the weighted sum,
raised to at least 0.85 when `spike_flag` is set, and to at least 0.9 when
`jump_flag` is set and the required speed exceeds `max_speed_kmh * 2`. -/
def pass2Confidence (max_speed_kmh max_distance_km : ℝ) (prev cur nxt : GpsPoint) : ℝ :=
  let c0 := 0.25 * distance_factor max_distance_km prev cur nxt +
    0.35 * detour_factor prev cur nxt + 0.40 * speed_factor max_speed_kmh prev cur nxt
  let c1 := if spikeCond max_distance_km prev cur nxt then max c0 0.85 else c0
  if jumpCond max_distance_km prev cur nxt ∧
      ((max_speed_kmh * 2 : ℝ) : EReal) < max_req_speed prev cur nxt then
    max c1 0.9
  else c1

/-- The Pass-2 `details` dict (display rounding omitted). -/
def pass2Details (max_speed_kmh max_distance_km : ℝ) (prev cur nxt : GpsPoint) :
    SrcPass2Details :=
  { distance_from_prev_km := pointDist prev cur
    distance_to_next_km := pointDist cur nxt
    direct_route_km := pointDist prev nxt
    time_to_point_sec := pyTrunc (cur.timestamp - prev.timestamp)
    time_from_point_sec := pyTrunc (nxt.timestamp - cur.timestamp)
    speed_to_point_kmh :=
      if speed_to prev cur = ⊤ then none else some (speed_to prev cur).toReal
    speed_from_point_kmh :=
      if speed_from cur nxt = ⊤ then none else some (speed_from cur nxt).toReal
    speed_direct_kmh :=
      if speed_direct prev nxt = ⊤ then none else some (speed_direct prev nxt).toReal
    max_speed_kmh := max_speed_kmh
    max_distance_km := max_distance_km
    max_jump_dt_sec := 10
    speed_flag := decide (speedCond max_speed_kmh prev cur nxt)
    jump_flag := decide (jumpCond max_distance_km prev cur nxt)
    spike_flag := decide (spikeCond max_distance_km prev cur nxt)
    distance_factor := distance_factor max_distance_km prev cur nxt
    detour_factor := detour_factor prev cur nxt
    speed_factor := speed_factor max_speed_kmh prev cur nxt }

/-- One iteration of Pass 2: `None` when no signal fires, else the outlier,
with the single reason label picked by priority `flying_point` (spike), then
`speed_outlier`, then `jump_outlier`. -/
def pass2Step (max_speed_kmh max_distance_km : ℝ) (prev cur nxt : GpsPoint) :
    Option FlaggedPoint :=
  if speedCond max_speed_kmh prev cur nxt ∨ jumpCond max_distance_km prev cur nxt ∨
      spikeCond max_distance_km prev cur nxt then
    some (add_outlier cur (some prev) (some nxt)
      (if spikeCond max_distance_km prev cur nxt then "flying_point"
       else if speedCond max_speed_kmh prev cur nxt then "speed_outlier"
       else "jump_outlier")
      (DetectionDetails.srcPass2 (pass2Details max_speed_kmh max_distance_km prev cur nxt))
      (pass2Confidence max_speed_kmh max_distance_km prev cur nxt))
  else none

/-- Pass 2 over consecutive triples of the sorted list. -/
def pass2 (max_speed_kmh max_distance_km : ℝ) : List GpsPoint → List FlaggedPoint
  | p :: c :: n :: rest =>
    (pass2Step max_speed_kmh max_distance_km p c n).toList ++
      pass2 max_speed_kmh max_distance_km (c :: n :: rest)
  | _ => []

/-- `detect_outliers(points, max_speed_kmh=150, max_distance_km=0.5)` of
`src/outlier_detector.py`: normalize, sort, Pass 1 then Pass 2; the raw
candidate list is returned (this module has no Pass 3). -/
def detect_outliers (points : List GpsPoint)
    (max_speed_kmh : ℝ := 150) (max_distance_km : ℝ := 0.5) : List FlaggedPoint :=
  if points.length < 3 then []
  else
    let pts := sortPts (points.map normalizePoint)
    pass1 pts ++ pass2 max_speed_kmh max_distance_km pts

end Src

/-! ## Geometry toolkit -/

theorem central_angle_self (lat lon : ℝ) : central_angle lat lon lat lon = 0 := by
  simp [central_angle, radians]

theorem sin_sq_radians_swap (u v : ℝ) :
    Real.sin (radians (u - v) / 2) ^ 2 = Real.sin (radians (v - u) / 2) ^ 2 := by
  rw [show u - v = -(v - u) by ring, radians, neg_mul, neg_div, Real.sin_neg,
    radians]
  ring

theorem central_angle_comm (lat1 lon1 lat2 lon2 : ℝ) :
    central_angle lat1 lon1 lat2 lon2 = central_angle lat2 lon2 lat1 lon1 := by
  simp only [central_angle]
  rw [sin_sq_radians_swap lat2 lat1, sin_sq_radians_swap lon2 lon1,
    mul_comm (Real.cos (radians lat1)) (Real.cos (radians lat2))]

theorem central_angle_meridian (lon lat1 lat2 : ℝ) (h0 : lat1 ≤ lat2)
    (h180 : lat2 - lat1 ≤ 180) :
    central_angle lat1 lon lat2 lon = radians (lat2 - lat1) := by
  have hpi := Real.pi_pos
  have hd0 : 0 ≤ lat2 - lat1 := by linarith
  have hy0 : 0 ≤ radians (lat2 - lat1) / 2 := by
    apply div_nonneg _ (by norm_num)
    exact mul_nonneg hd0 (by positivity)
  have hy2 : radians (lat2 - lat1) / 2 ≤ Real.pi / 2 := by
    rw [radians, div_le_div_iff_of_pos_right (by norm_num : (0:ℝ) < 2)]
    calc (lat2 - lat1) * (Real.pi / 180) ≤ 180 * (Real.pi / 180) := by
          apply mul_le_mul_of_nonneg_right h180; positivity
      _ = Real.pi := by ring
  simp only [central_angle, sub_self]
  rw [show radians 0 = 0 by simp [radians]]
  norm_num
  rw [Real.sqrt_sq_eq_abs,
    abs_of_nonneg (Real.sin_nonneg_of_nonneg_of_le_pi hy0 (by linarith)),
    Real.arcsin_sin (by linarith) hy2]
  ring

theorem App.pointDist_same (a b : GpsPoint) (h1 : a.latitude = b.latitude)
    (h2 : a.longitude = b.longitude) : App.pointDist a b = 0 := by
  rw [App.pointDist, App.haversine_distance, h1, h2, central_angle_self, mul_zero]

theorem App.pointDist_meridian_le (a b : GpsPoint) (hlon : a.longitude = b.longitude)
    (h0 : a.latitude ≤ b.latitude) (h180 : b.latitude - a.latitude ≤ 180) :
    App.pointDist a b = 6371000 * radians (b.latitude - a.latitude) := by
  rw [App.pointDist, App.haversine_distance, hlon, central_angle_meridian _ _ _ h0 h180]

theorem App.pointDist_meridian_ge (a b : GpsPoint) (hlon : a.longitude = b.longitude)
    (h0 : b.latitude ≤ a.latitude) (h180 : a.latitude - b.latitude ≤ 180) :
    App.pointDist a b = 6371000 * radians (a.latitude - b.latitude) := by
  rw [App.pointDist, App.haversine_distance, hlon, central_angle_comm,
    central_angle_meridian _ _ _ h0 h180]

theorem Src.pointDist_same_src (a b : GpsPoint) (h1 : a.latitude = b.latitude)
    (h2 : a.longitude = b.longitude) : Src.pointDist a b = 0 := by
  rw [Src.pointDist, Src.haversine_distance, h1, h2, central_angle_self, mul_zero]

/-- Bounds on `π` used to settle the concrete threshold comparisons. -/
theorem pi_bounds : (3.1415 : ℝ) < Real.pi ∧ Real.pi < 3.1416 := by
  constructor
  · linarith [Real.pi_gt_d6]
  · linarith [Real.pi_lt_d6]

theorem Src.pointDist_meridian_le_src (a b : GpsPoint) (hlon : a.longitude = b.longitude)
    (h0 : a.latitude ≤ b.latitude) (h180 : b.latitude - a.latitude ≤ 180) :
    Src.pointDist a b = 6371 * radians (b.latitude - a.latitude) := by
  rw [Src.pointDist, Src.haversine_distance, hlon, central_angle_meridian _ _ _ h0 h180]

theorem Src.pointDist_meridian_ge_src (a b : GpsPoint) (hlon : a.longitude = b.longitude)
    (h0 : b.latitude ≤ a.latitude) (h180 : a.latitude - b.latitude ≤ 180) :
    Src.pointDist a b = 6371 * radians (a.latitude - b.latitude) := by
  rw [Src.pointDist, Src.haversine_distance, hlon, central_angle_comm,
    central_angle_meridian _ _ _ h0 h180]

/-! ## Evaluation toolkit: projections of the records built by the passes -/

@[simp] theorem App.normalizePoint_id (p : GpsPoint) : App.normalizePoint p = p := rfl

@[simp] theorem add_outlier_point_id (c : GpsPoint) (p n : Option GpsPoint)
    (r : String) (d : DetectionDetails) (conf : ℝ) :
    (add_outlier c p n r d conf).point_id = c.id := rfl

@[simp] theorem add_outlier_reason (c : GpsPoint) (p n : Option GpsPoint)
    (r : String) (d : DetectionDetails) (conf : ℝ) :
    (add_outlier c p n r d conf).detection_reason = r := rfl

@[simp] theorem add_outlier_conf (c : GpsPoint) (p n : Option GpsPoint)
    (r : String) (d : DetectionDetails) (conf : ℝ) :
    (add_outlier c p n r d conf).confidence_score = max 0 (min 1 conf) := rfl

@[simp] theorem add_outlier_prev (c : GpsPoint) (p n : Option GpsPoint)
    (r : String) (d : DetectionDetails) (conf : ℝ) :
    (add_outlier c p n r d conf).previous_point_id = p.map (fun q => q.id) := rfl

@[simp] theorem add_outlier_next (c : GpsPoint) (p n : Option GpsPoint)
    (r : String) (d : DetectionDetails) (conf : ℝ) :
    (add_outlier c p n r d conf).next_point_id = n.map (fun q => q.id) := rfl

@[simp] theorem add_outlier_ts (c : GpsPoint) (p n : Option GpsPoint)
    (r : String) (d : DetectionDetails) (conf : ℝ) :
    (add_outlier c p n r d conf).timestamp = pyTrunc c.timestamp := rfl

@[simp] theorem add_outlier_details (c : GpsPoint) (p n : Option GpsPoint)
    (r : String) (d : DetectionDetails) (conf : ℝ) :
    (add_outlier c p n r d conf).detection_details = d := rfl

@[simp] theorem add_outlier_lat (c : GpsPoint) (p n : Option GpsPoint)
    (r : String) (d : DetectionDetails) (conf : ℝ) :
    (add_outlier c p n r d conf).latitude = c.latitude := rfl

@[simp] theorem add_outlier_lon (c : GpsPoint) (p n : Option GpsPoint)
    (r : String) (d : DetectionDetails) (conf : ℝ) :
    (add_outlier c p n r d conf).longitude = c.longitude := rfl

theorem ereal_coe_max (a b : ℝ) :
    (max ((a : ℝ) : EReal) ((b : ℝ) : EReal)) = ((max a b : ℝ) : EReal) :=
  (EReal.coe_strictMono.monotone.map_max).symm

/-- The clamp `max(0.0, min(1.0, c))` always lands in `[0, 1]`. -/
theorem clamp_mem_unit (c : ℝ) : 0 ≤ max 0 (min 1 c) ∧ max 0 (min 1 c) ≤ 1 :=
  ⟨le_max_left 0 _, max_le (by norm_num) (min_le_left 1 c)⟩

/-! ## Structural lemmas about the passes -/

/-- Every record Pass 1 emits is an `add_outlier` with reason
`non_increasing_timestamp`, confidence argument 0.9, a present `prev`, and a
`next` that is absent only when the flagged point is the last of the walk. -/
theorem pass1Aux_shape (r : FlaggedPoint) :
    ∀ (p : GpsPoint) (l : List GpsPoint), r ∈ pass1Aux p l →
    ∃ (cur prev : GpsPoint) (nx : Option GpsPoint),
      r = add_outlier cur (some prev) nx "non_increasing_timestamp"
        (DetectionDetails.pass1 ⟨pyTrunc prev.timestamp, pyTrunc cur.timestamp⟩) 0.9 ∧
      (nx = none → (p :: l).getLast?.map (fun q => q.id) = some cur.id) := by
  intro p l
  induction l generalizing p with
  | nil => intro h; simp [pass1Aux] at h
  | cons cur rest ih =>
    intro hr
    rw [pass1Aux, List.mem_append] at hr
    rcases hr with hr | hr
    · by_cases hts : cur.timestamp ≤ p.timestamp
      · rw [if_pos hts, List.mem_singleton] at hr
        refine ⟨cur, p, rest.head?, hr, ?_⟩
        intro hnone
        cases rest with
        | nil => simp
        | cons a t => simp at hnone
      · rw [if_neg hts] at hr; simp at hr
    · obtain ⟨c2, p2, nx, h1, h2⟩ := ih cur hr
      refine ⟨c2, p2, nx, h1, ?_⟩
      intro hnone
      have h3 := h2 hnone
      rwa [List.getLast?_cons_cons]

/-- If a decomposition of the walked list exhibits an adjacent pair with a
non-increasing timestamp, Pass 1 emits the corresponding record. -/
theorem pass1Aux_mem_pair (prev cur : GpsPoint) (l2 : List GpsPoint)
    (h : cur.timestamp ≤ prev.timestamp) :
    ∀ (p : GpsPoint) (l1 : List GpsPoint),
    add_outlier cur (some prev) l2.head? "non_increasing_timestamp"
      (DetectionDetails.pass1 ⟨pyTrunc prev.timestamp, pyTrunc cur.timestamp⟩) 0.9
      ∈ pass1Aux p (l1 ++ prev :: cur :: l2) := by
  intro p l1
  induction l1 generalizing p with
  | nil =>
    rw [List.nil_append, pass1Aux, List.mem_append]
    right
    rw [pass1Aux, List.mem_append]
    left
    rw [if_pos h]
    exact List.mem_singleton.mpr rfl
  | cons x xs ih =>
    rw [List.cons_append, pass1Aux, List.mem_append]
    right
    exact ih x

/-- Every record Pass 2 (App) emits comes from `pass2Step` on some triple. -/
theorem App.pass2_shape (ms md : ℝ) (r : FlaggedPoint) :
    ∀ l : List GpsPoint, r ∈ App.pass2 ms md l →
    ∃ p c n, App.pass2Step ms md p c n = some r := by
  intro l
  induction l with
  | nil => intro h; simp [App.pass2] at h
  | cons a t ih =>
    cases t with
    | nil => intro h; simp [App.pass2] at h
    | cons c t2 =>
      cases t2 with
      | nil => intro h; simp [App.pass2] at h
      | cons n rest =>
        intro hr
        rw [App.pass2, List.mem_append] at hr
        rcases hr with hr | hr
        · refine ⟨a, c, n, ?_⟩
          rcases hs : App.pass2Step ms md a c n with _ | v <;> rw [hs] at hr
          · simp at hr
          · simp only [Option.toList_some, List.mem_singleton] at hr
            rw [hr]
        · exact ih hr

/-- A successful `pass2Step` (App) is the `add_outlier` record built from the
triple, with the reason picked from the two signals. -/
theorem App.pass2Step_some (ms md : ℝ) (p c n : GpsPoint) (r : FlaggedPoint)
    (h : App.pass2Step ms md p c n = some r) :
    r = add_outlier c (some p) (some n)
      (if App.speedCond ms p c n then "speed_outlier" else "jump_outlier")
      (DetectionDetails.appPass2 (App.pass2Details ms md p c n))
      (App.pass2Confidence ms md p c n) := by
  rw [App.pass2Step] at h
  by_cases hc : App.speedCond ms p c n ∨ App.jumpCond md p c n
  · rw [if_pos hc, Option.some.injEq] at h
    exact h.symm
  · rw [if_neg hc] at h
    exact absurd h (by simp)

/-- Every record Pass 2 (Src) emits comes from `pass2Step` on some triple. -/
theorem Src.pass2_shape_src (ms md : ℝ) (r : FlaggedPoint) :
    ∀ l : List GpsPoint, r ∈ Src.pass2 ms md l →
    ∃ p c n, Src.pass2Step ms md p c n = some r := by
  intro l
  induction l with
  | nil => intro h; simp [Src.pass2] at h
  | cons a t ih =>
    cases t with
    | nil => intro h; simp [Src.pass2] at h
    | cons c t2 =>
      cases t2 with
      | nil => intro h; simp [Src.pass2] at h
      | cons n rest =>
        intro hr
        rw [Src.pass2, List.mem_append] at hr
        rcases hr with hr | hr
        · refine ⟨a, c, n, ?_⟩
          rcases hs : Src.pass2Step ms md a c n with _ | v <;> rw [hs] at hr
          · simp at hr
          · simp only [Option.toList_some, List.mem_singleton] at hr
            rw [hr]
        · exact ih hr

/-- A successful `pass2Step` (Src) is the `add_outlier` record built from the
triple, with the reason picked by the three-way priority. -/
theorem Src.pass2Step_some_src (ms md : ℝ) (p c n : GpsPoint) (r : FlaggedPoint)
    (h : Src.pass2Step ms md p c n = some r) :
    r = add_outlier c (some p) (some n)
      (if Src.spikeCond md p c n then "flying_point"
       else if Src.speedCond ms p c n then "speed_outlier" else "jump_outlier")
      (DetectionDetails.srcPass2 (Src.pass2Details ms md p c n))
      (Src.pass2Confidence ms md p c n) := by
  rw [Src.pass2Step] at h
  by_cases hc : Src.speedCond ms p c n ∨ Src.jumpCond md p c n ∨ Src.spikeCond md p c n
  · rw [if_pos hc, Option.some.injEq] at h
    exact h.symm
  · rw [if_neg hc] at h
    exact absurd h (by simp)

/-- Anything in the Pass-3 fold's accepted list was in the starting state or
in the walked candidate list. -/
theorem App.pass3Step_filtered_sub (r : FlaggedPoint) :
    ∀ (l : List FlaggedPoint) (st : App.Pass3State),
    r ∈ (l.foldl App.pass3Step st).filtered → r ∈ st.filtered ∨ r ∈ l := by
  intro l
  induction l with
  | nil => intro st h; exact Or.inl h
  | cons o t ih =>
    intro st h
    rw [List.foldl_cons] at h
    rcases ih (App.pass3Step st o) h with h2 | h2
    · rw [App.pass3Step] at h2
      split_ifs at h2 <;>
        first
          | exact Or.inl h2
          | · simp only [List.mem_append, List.mem_singleton] at h2
              rcases h2 with h2 | h2
              · exact Or.inl h2
              · exact Or.inr (by rw [h2]; exact List.mem_cons_self o t)
    · exact Or.inr (List.mem_cons_of_mem o h2)

/-- Pass 3 only filters: its output is a subset of its input candidates. -/
theorem App.pass3_sub (l : List FlaggedPoint) (r : FlaggedPoint)
    (h : r ∈ App.pass3 l) : r ∈ l := by
  rw [App.pass3, App.sortByPointId, List.mem_insertionSort] at h
  rcases App.pass3Step_filtered_sub r _ _ h with h2 | h2
  · simp at h2
  · rwa [App.sortByConfDesc, List.mem_insertionSort] at h2

/-! ## Confidence bounds -/

theorem pass1Aux_conf (p : GpsPoint) (l : List GpsPoint) (r : FlaggedPoint)
    (h : r ∈ pass1Aux p l) : 0 ≤ r.confidence_score ∧ r.confidence_score ≤ 1 := by
  obtain ⟨cur, prev, nx, hshape, -⟩ := pass1Aux_shape r p l h
  rw [hshape, add_outlier_conf]
  exact clamp_mem_unit _

theorem pass1_conf (l : List GpsPoint) (r : FlaggedPoint)
    (h : r ∈ pass1 l) : 0 ≤ r.confidence_score ∧ r.confidence_score ≤ 1 := by
  cases l with
  | nil => simp [pass1] at h
  | cons p rest => exact pass1Aux_conf p rest r h

theorem App.pass2_conf (ms md : ℝ) (l : List GpsPoint) (r : FlaggedPoint)
    (h : r ∈ App.pass2 ms md l) : 0 ≤ r.confidence_score ∧ r.confidence_score ≤ 1 := by
  obtain ⟨p, c, n, hs⟩ := App.pass2_shape ms md r l h
  rw [App.pass2Step_some ms md p c n r hs, add_outlier_conf]
  exact clamp_mem_unit _

theorem Src.pass2_conf_src (ms md : ℝ) (l : List GpsPoint) (r : FlaggedPoint)
    (h : r ∈ Src.pass2 ms md l) : 0 ≤ r.confidence_score ∧ r.confidence_score ≤ 1 := by
  obtain ⟨p, c, n, hs⟩ := Src.pass2_shape_src ms md r l h
  rw [Src.pass2Step_some_src ms md p c n r hs, add_outlier_conf]
  exact clamp_mem_unit _

/-! ## Bounds on the Pass-2 factors and confidence (Src module) -/

theorem Src.distance_factor_le_one_src (md : ℝ) (p c n : GpsPoint) :
    Src.distance_factor md p c n ≤ 1 := min_le_left _ _

theorem Src.detour_factor_le_one_src (p c n : GpsPoint) :
    Src.detour_factor p c n ≤ 1 := min_le_left _ _

theorem Src.speed_factor_le_one_src (ms : ℝ) (p c n : GpsPoint) :
    Src.speed_factor ms p c n ≤ 1 := by
  rw [Src.speed_factor]
  split_ifs
  · norm_num
  · exact min_le_left _ _

theorem Src.base_confidence_le_one_src (ms md : ℝ) (p c n : GpsPoint) :
    0.25 * Src.distance_factor md p c n + 0.35 * Src.detour_factor p c n +
      0.40 * Src.speed_factor ms p c n ≤ 1 := by
  have h1 := Src.distance_factor_le_one_src md p c n
  have h2 := Src.detour_factor_le_one_src p c n
  have h3 := Src.speed_factor_le_one_src ms p c n
  nlinarith

theorem Src.pass2Confidence_ge_base (ms md : ℝ) (p c n : GpsPoint) :
    0.25 * Src.distance_factor md p c n + 0.35 * Src.detour_factor p c n +
      0.40 * Src.speed_factor ms p c n ≤ Src.pass2Confidence ms md p c n := by
  rw [Src.pass2Confidence]
  split_ifs <;>
    first
      | exact le_max_of_le_left (le_max_left _ _)
      | exact le_max_left _ _
      | exact le_max_of_le_left le_rfl
      | exact le_rfl

theorem Src.pass2Confidence_le_one_src (ms md : ℝ) (p c n : GpsPoint) :
    Src.pass2Confidence ms md p c n ≤ 1 := by
  have hb := Src.base_confidence_le_one_src ms md p c n
  rw [Src.pass2Confidence]
  split_ifs <;>
    first
      | exact max_le (max_le hb (by norm_num)) (by norm_num)
      | exact max_le hb (by norm_num)
      | exact hb

theorem Src.pass2Confidence_spike (ms md : ℝ) (p c n : GpsPoint)
    (h : Src.spikeCond md p c n) : 0.85 ≤ Src.pass2Confidence ms md p c n := by
  rw [Src.pass2Confidence]
  rw [if_pos h]
  split_ifs
  · exact le_max_of_le_left (le_max_right _ _)
  · exact le_max_right _ _

theorem Src.pass2Confidence_jump (ms md : ℝ) (p c n : GpsPoint)
    (h1 : Src.jumpCond md p c n)
    (h2 : ((ms * 2 : ℝ) : EReal) < Src.max_req_speed p c n) :
    0.9 ≤ Src.pass2Confidence ms md p c n := by
  simp only [Src.pass2Confidence]
  rw [if_pos ⟨h1, h2⟩]
  exact le_max_right _ _

/-! ## Monotonicity of the speed signal (Src module) -/

theorem Src.speedCond_mono {ms ms' : ℝ} (h : ms' ≤ ms) (p c n : GpsPoint)
    (hs : Src.speedCond ms p c n) : Src.speedCond ms' p c n := by
  have hco : ((ms' * 1.15 : ℝ) : EReal) ≤ ((ms * 1.15 : ℝ) : EReal) :=
    EReal.coe_le_coe_iff.mpr (by nlinarith)
  rcases hs with hs | hs
  · exact Or.inl (lt_of_le_of_lt hco hs)
  · exact Or.inr (lt_of_le_of_lt hco hs)

theorem Src.pass2Step_mono {ms ms' : ℝ} (h : ms' ≤ ms) (md : ℝ) (p c n : GpsPoint)
    (hs : (Src.pass2Step ms md p c n).isSome) :
    (Src.pass2Step ms' md p c n).isSome := by
  rw [Src.pass2Step] at hs ⊢
  by_cases hc : Src.speedCond ms p c n ∨ Src.jumpCond md p c n ∨ Src.spikeCond md p c n
  · have hc2 : Src.speedCond ms' p c n ∨ Src.jumpCond md p c n ∨
        Src.spikeCond md p c n := by
      rcases hc with hc | hc
      · exact Or.inl (Src.speedCond_mono h p c n hc)
      · exact Or.inr hc
    rw [if_pos hc2]
    simp
  · rw [if_neg hc] at hs
    simp at hs

theorem Src.pass2_len_mono {ms ms' : ℝ} (h : ms' ≤ ms) (md : ℝ) :
    ∀ l : List GpsPoint, (Src.pass2 ms md l).length ≤ (Src.pass2 ms' md l).length := by
  intro l
  induction l with
  | nil => simp [Src.pass2]
  | cons a t ih =>
    cases t with
    | nil => simp [Src.pass2]
    | cons c t2 =>
      cases t2 with
      | nil => simp [Src.pass2]
      | cons n rest =>
        simp only [Src.pass2, List.length_append]
        refine Nat.add_le_add ?_ ih
        rcases ho : Src.pass2Step ms md a c n with _ | v
        · simp
        · have h2 := Src.pass2Step_mono h md a c n (by rw [ho]; rfl)
          rcases ho2 : Src.pass2Step ms' md a c n with _ | v2
          · rw [ho2] at h2; simp at h2
          · simp

/-! ## Concrete input: a spike on the Greenwich meridian

Three points on longitude 0 at latitudes 0, 0.013 and 0.006 degrees, 100 s
apart.  The middle point is ≈1445 m from its predecessor and ≈778 m from its
successor while the two neighbors are ≈667 m apart: the spike pattern fires
for `max_distance_m = 500` (or 0.5 km), while every speed stays far below a
30 m/s (or 150 km/h) threshold. -/

def sp1 : GpsPoint := ⟨1, 0, 0, 0⟩
def sp2 : GpsPoint := ⟨2, 0.013, 0, 100⟩
def sp3 : GpsPoint := ⟨3, 0.006, 0, 200⟩

@[simp] theorem sp1_id : sp1.id = 1 := rfl
@[simp] theorem sp1_lat : sp1.latitude = 0 := rfl
@[simp] theorem sp1_lon : sp1.longitude = 0 := rfl
@[simp] theorem sp1_ts : sp1.timestamp = 0 := rfl
@[simp] theorem sp2_id : sp2.id = 2 := rfl
@[simp] theorem sp2_lat : sp2.latitude = 0.013 := rfl
@[simp] theorem sp2_lon : sp2.longitude = 0 := rfl
@[simp] theorem sp2_ts : sp2.timestamp = 100 := rfl
@[simp] theorem sp3_id : sp3.id = 3 := rfl
@[simp] theorem sp3_lat : sp3.latitude = 0.006 := rfl
@[simp] theorem sp3_lon : sp3.longitude = 0 := rfl
@[simp] theorem sp3_ts : sp3.timestamp = 200 := rfl

theorem dSp12 : App.pointDist sp1 sp2 = 6371000 * (0.013 * (Real.pi / 180)) := by
  rw [App.pointDist_meridian_le sp1 sp2 (by norm_num) (by norm_num) (by norm_num)]
  norm_num [radians]

theorem dSp23 : App.pointDist sp2 sp3 = 6371000 * (0.007 * (Real.pi / 180)) := by
  rw [App.pointDist_meridian_ge sp2 sp3 (by norm_num) (by norm_num) (by norm_num)]
  norm_num [radians]

theorem dSp13 : App.pointDist sp1 sp3 = 6371000 * (0.006 * (Real.pi / 180)) := by
  rw [App.pointDist_meridian_le sp1 sp3 (by norm_num) (by norm_num) (by norm_num)]
  norm_num [radians]

theorem spSpike : App.spikeCond 500 sp1 sp2 sp3 := by
  refine ⟨?_, ?_, ?_⟩
  · rw [dSp12]; nlinarith [pi_bounds.1, pi_bounds.2]
  · rw [dSp23]; nlinarith [pi_bounds.1, pi_bounds.2]
  · rw [dSp13]; norm_num; nlinarith [pi_bounds.1, pi_bounds.2]

theorem spSpeedTo : App.speed_to sp1 sp2 =
    ((6371000 * (0.013 * (Real.pi / 180)) / 100 : ℝ) : EReal) := by
  rw [App.speed_to, if_pos (by norm_num), App.calculate_speed]
  simp only [sp1_ts, sp2_ts]
  rw [if_neg (by norm_num), dSp12]
  norm_num

theorem spSpeedFrom : App.speed_from sp2 sp3 =
    ((6371000 * (0.007 * (Real.pi / 180)) / 100 : ℝ) : EReal) := by
  rw [App.speed_from, if_pos (by norm_num), App.calculate_speed]
  simp only [sp2_ts, sp3_ts]
  rw [if_neg (by norm_num), dSp23]
  norm_num

theorem spNoSpeed : ¬ App.speedCond 30 sp1 sp2 sp3 := by
  rw [App.speedCond, spSpeedTo, spSpeedFrom]
  push_neg
  constructor <;>
    · rw [EReal.coe_le_coe_iff]
      nlinarith [pi_bounds.1, pi_bounds.2]

theorem spJump : App.jumpCond 500 sp1 sp2 sp3 := Or.inr (Or.inr spSpike)

theorem spDf : App.distance_factor 500 sp1 sp2 sp3 = 1 := by
  rw [App.distance_factor, dSp12, dSp23]
  rw [show max ((500:ℝ) * 2) 0.001 = 1000 by norm_num]
  rw [min_eq_left]
  rw [le_div_iff₀ (by norm_num : (0:ℝ) < 1000)]
  nlinarith [pi_bounds.1]

theorem spDetour : App.detour_factor sp1 sp2 sp3 = 7/15 := by
  have hpi := Real.pi_pos
  have h50 : (50 : ℝ) ≤ 6371000 * (0.006 * (Real.pi / 180)) := by
    nlinarith [pi_bounds.1]
  rw [App.detour_factor, dSp12, dSp23, dSp13, max_eq_left h50]
  rw [show (6371000 * (0.013 * (Real.pi / 180)) + 6371000 * (0.007 * (Real.pi / 180)) -
      6371000 * (0.006 * (Real.pi / 180))) / (6371000 * (0.006 * (Real.pi / 180))) / 5 =
      7/15 by field_simp; ring]
  norm_num

theorem spSf : App.speed_factor 30 sp1 sp2 sp3 = 0 := by
  rw [App.speed_factor, App.max_req_speed, spSpeedTo, spSpeedFrom, ereal_coe_max]
  rw [if_neg (EReal.coe_ne_top _), EReal.toReal_coe]
  have hle : max (6371000 * (0.013 * (Real.pi / 180)) / 100)
      (6371000 * (0.007 * (Real.pi / 180)) / 100) ≤ 30 := by
    apply max_le <;> nlinarith [pi_bounds.2]
  rw [show max (30:ℝ) 1 = 30 by norm_num]
  rw [max_eq_left (by nlinarith : (max (6371000 * (0.013 * (Real.pi / 180)) / 100)
      (6371000 * (0.007 * (Real.pi / 180)) / 100) - 30) / 30 ≤ 0)]
  norm_num

theorem spConf : App.pass2Confidence 30 500 sp1 sp2 sp3 = 31/75 := by
  rw [App.pass2Confidence]
  simp only [spDf, spDetour, spSf]
  rw [if_neg, if_neg]
  · norm_num
  · rintro ⟨-, h⟩
    norm_num at h
  · rintro ⟨-, h⟩
    rw [App.max_req_speed, spSpeedTo, spSpeedFrom, ereal_coe_max,
      EReal.coe_lt_coe_iff] at h
    have hle : max (6371000 * (0.013 * (Real.pi / 180)) / 100)
        (6371000 * (0.007 * (Real.pi / 180)) / 100) ≤ 30 := by
      apply max_le <;> nlinarith [pi_bounds.2]
    nlinarith

theorem spStep : App.pass2Step 30 500 sp1 sp2 sp3 =
    some (add_outlier sp2 (some sp1) (some sp3) "jump_outlier"
      (DetectionDetails.appPass2 (App.pass2Details 30 500 sp1 sp2 sp3)) (31/75)) := by
  rw [App.pass2Step, if_pos (Or.inr spJump), if_neg spNoSpeed, spConf]

theorem spRun : App.detect_outliers [sp1, sp2, sp3] 30 500 =
    [add_outlier sp2 (some sp1) (some sp3) "jump_outlier"
      (DetectionDetails.appPass2 (App.pass2Details 30 500 sp1 sp2 sp3)) (31/75)] := by
  norm_num [App.detect_outliers, sortPts, List.insertionSort,
    List.orderedInsert, pass1, pass1Aux, App.pass2, spStep, App.pass3,
    App.sortByConfDesc, App.sortByPointId, App.pass3Step, App.truthyId]

theorem dKm12 : Src.pointDist sp1 sp2 = 6371 * (0.013 * (Real.pi / 180)) := by
  rw [Src.pointDist_meridian_le_src sp1 sp2 (by norm_num) (by norm_num) (by norm_num)]
  norm_num [radians]

theorem dKm23 : Src.pointDist sp2 sp3 = 6371 * (0.007 * (Real.pi / 180)) := by
  rw [Src.pointDist_meridian_ge_src sp2 sp3 (by norm_num) (by norm_num) (by norm_num)]
  norm_num [radians]

theorem dKm13 : Src.pointDist sp1 sp3 = 6371 * (0.006 * (Real.pi / 180)) := by
  rw [Src.pointDist_meridian_le_src sp1 sp3 (by norm_num) (by norm_num) (by norm_num)]
  norm_num [radians]

theorem spKmSpike : Src.spikeCond 0.5 sp1 sp2 sp3 := by
  refine ⟨?_, ?_, ?_⟩
  · rw [dKm12]; nlinarith [pi_bounds.1, pi_bounds.2]
  · rw [dKm23]; nlinarith [pi_bounds.1, pi_bounds.2]
  · rw [dKm13]; nlinarith [pi_bounds.1, pi_bounds.2]

theorem spSrcStep : Src.pass2Step 150 0.5 sp1 sp2 sp3 =
    some (add_outlier sp2 (some sp1) (some sp3) "flying_point"
      (DetectionDetails.srcPass2 (Src.pass2Details 150 0.5 sp1 sp2 sp3))
      (Src.pass2Confidence 150 0.5 sp1 sp2 sp3)) := by
  rw [Src.pass2Step, if_pos (Or.inr (Or.inr spKmSpike)), if_pos spKmSpike]

/-- For a point whose timestamp round-trips through the millisecond
heuristic unchanged, the Src normalization loop is the identity. -/
theorem Src.normalizePoint_eq_self (p : GpsPoint)
    (h : Src.normalize_timestamp_to_seconds (pyTrunc p.timestamp) = p.timestamp) :
    Src.normalizePoint p = p := by
  rw [Src.normalizePoint, h]

theorem srcNormSp1 : Src.normalizePoint sp1 = sp1 :=
  Src.normalizePoint_eq_self sp1 (by
    norm_num [pyTrunc, Src.normalize_timestamp_to_seconds])

theorem srcNormSp2 : Src.normalizePoint sp2 = sp2 :=
  Src.normalizePoint_eq_self sp2 (by
    norm_num [pyTrunc, Src.normalize_timestamp_to_seconds])

theorem srcNormSp3 : Src.normalizePoint sp3 = sp3 :=
  Src.normalizePoint_eq_self sp3 (by
    norm_num [pyTrunc, Src.normalize_timestamp_to_seconds])

theorem spSrcRun : Src.detect_outliers [sp1, sp2, sp3] 150 0.5 =
    [add_outlier sp2 (some sp1) (some sp3) "flying_point"
      (DetectionDetails.srcPass2 (Src.pass2Details 150 0.5 sp1 sp2 sp3))
      (Src.pass2Confidence 150 0.5 sp1 sp2 sp3)] := by
  norm_num [Src.detect_outliers, srcNormSp1, srcNormSp2, srcNormSp3,
    sortPts, List.insertionSort, List.orderedInsert, pass1, pass1Aux, Src.pass2]
  rw [show (1/2 : ℝ) = (0.5 : ℝ) by norm_num, spSrcStep]
  rfl

/-! ## Concrete input: a duplicate-timestamp trio (all points co-located) -/

def w1 : GpsPoint := ⟨1, 0, 0, 5⟩
def w2 : GpsPoint := ⟨2, 0, 0, 5⟩
def w3 : GpsPoint := ⟨3, 0, 0, 10⟩

theorem wRun : App.detect_outliers [w1, w2, w3] 30 500 =
    [add_outlier w2 (some w1) (some w3) "non_increasing_timestamp"
      (DetectionDetails.pass1 ⟨5, 5⟩) 0.9] := by
  norm_num [App.detect_outliers, sortPts, List.insertionSort, List.orderedInsert,
    pass1, pass1Aux, App.pass2, App.pass2Step, App.speedCond, App.speed_to,
    App.speed_from, App.calculate_speed, App.jumpCond, App.spikeCond,
    App.max_jump_dt_sec, App.pass2Confidence, App.distance_factor,
    App.detour_factor, App.speed_factor, App.max_req_speed, App.pointDist_same,
    pyTrunc, App.pass3, App.sortByConfDesc, App.sortByPointId, App.pass3Step,
    App.truthyId, w1, w2, w3]

/-! ## Concrete input: millisecond-scale timestamps (all points co-located)

Raw timestamps 2·10^11 (twice) and 2·10^11 + 10: above the 1e11 heuristic
threshold, so the Src module divides them by 1000 while the App module uses
them unchanged. -/

def m1 : GpsPoint := ⟨1, 0, 0, 200000000000⟩
def m2 : GpsPoint := ⟨2, 0, 0, 200000000000⟩
def m3 : GpsPoint := ⟨3, 0, 0, 200000000010⟩

theorem msAppRun : (App.detect_outliers [m1, m2, m3] 30 500).map
    (fun r => r.timestamp) = [200000000000] := by
  norm_num [App.detect_outliers, sortPts, List.insertionSort, List.orderedInsert,
    pass1, pass1Aux, App.pass2, App.pass2Step, App.speedCond, App.speed_to,
    App.speed_from, App.calculate_speed, App.jumpCond, App.spikeCond,
    App.max_jump_dt_sec, App.pass2Confidence, App.distance_factor,
    App.detour_factor, App.speed_factor, App.max_req_speed, App.pointDist_same,
    pyTrunc, App.pass3, App.sortByConfDesc, App.sortByPointId, App.pass3Step,
    App.truthyId, m1, m2, m3]

theorem msSrcRun : (Src.detect_outliers [m1, m2, m3] 150 0.5).map
    (fun r => r.timestamp) = [200000000, 200000000] := by
  norm_num [Src.detect_outliers, Src.normalizePoint, Src.normalize_timestamp_to_seconds,
    sortPts, List.insertionSort, List.orderedInsert,
    pass1, pass1Aux, Src.pass2, Src.pass2Step, Src.speedCond, Src.speed_to,
    Src.speed_from, Src.calculate_speed, Src.jumpCond, Src.spikeCond,
    Src.pass2Confidence, Src.distance_factor,
    Src.detour_factor, Src.speed_factor, Src.max_req_speed, Src.pointDist_same_src,
    pyTrunc, m1, m2, m3]

/-! ## Concrete input: a short-window jump whose detection disappears under
stricter thresholds

The second point is ≈667 m from the first, reached in 5 s; the third point
sits at the same place as the second, 995 s later.  With
`max_speed_ms = 200, max_distance_m = 500` the jump window is 10 s and the
short-window jump fires.  With the stricter `max_speed_ms = 150,
max_distance_m = 100` the derived window shrinks to 2 s, no signal fires,
and the batch yields no outliers at all. -/

def j1 : GpsPoint := ⟨1, 0, 0, 0⟩
def j2 : GpsPoint := ⟨2, 0.006, 0, 5⟩
def j3 : GpsPoint := ⟨3, 0.006, 0, 1000⟩

@[simp] theorem j1_id : j1.id = 1 := rfl
@[simp] theorem j1_lat : j1.latitude = 0 := rfl
@[simp] theorem j1_lon : j1.longitude = 0 := rfl
@[simp] theorem j1_ts : j1.timestamp = 0 := rfl
@[simp] theorem j2_id : j2.id = 2 := rfl
@[simp] theorem j2_lat : j2.latitude = 0.006 := rfl
@[simp] theorem j2_lon : j2.longitude = 0 := rfl
@[simp] theorem j2_ts : j2.timestamp = 5 := rfl
@[simp] theorem j3_id : j3.id = 3 := rfl
@[simp] theorem j3_lat : j3.latitude = 0.006 := rfl
@[simp] theorem j3_lon : j3.longitude = 0 := rfl
@[simp] theorem j3_ts : j3.timestamp = 1000 := rfl

theorem dJ12 : App.pointDist j1 j2 = 6371000 * (0.006 * (Real.pi / 180)) := by
  rw [App.pointDist_meridian_le j1 j2 (by norm_num) (by norm_num) (by norm_num)]
  norm_num [radians]

theorem dJ23 : App.pointDist j2 j3 = 0 :=
  App.pointDist_same j2 j3 (by norm_num) (by norm_num)

theorem jLooseStep : App.pass2Step 200 500 j1 j2 j3 =
    some (add_outlier j2 (some j1) (some j3)
      (if App.speedCond 200 j1 j2 j3 then "speed_outlier" else "jump_outlier")
      (DetectionDetails.appPass2 (App.pass2Details 200 500 j1 j2 j3))
      (App.pass2Confidence 200 500 j1 j2 j3)) := by
  have hjump : App.jumpCond 500 j1 j2 j3 := by
    left
    refine ⟨by norm_num, by norm_num [App.max_jump_dt_sec], ?_⟩
    rw [dJ12]
    nlinarith [pi_bounds.1]
  rw [App.pass2Step, if_pos (Or.inr hjump)]

theorem jLooseRun : (App.detect_outliers [j1, j2, j3] 200 500).length = 1 := by
  norm_num [App.detect_outliers, sortPts, List.insertionSort, List.orderedInsert,
    pass1, pass1Aux, App.pass2, jLooseStep, App.pass3, App.sortByConfDesc,
    App.sortByPointId, App.pass3Step, App.truthyId]

theorem jStrictSpeedTo : App.speed_to j1 j2 =
    ((6371000 * (0.006 * (Real.pi / 180)) / 5 : ℝ) : EReal) := by
  rw [App.speed_to, if_pos (by norm_num), App.calculate_speed]
  simp only [j1_ts, j2_ts]
  rw [if_neg (by norm_num), dJ12]
  norm_num

theorem jStrictSpeedFrom : App.speed_from j2 j3 = ((0 : ℝ) : EReal) := by
  rw [App.speed_from, if_pos (by norm_num), App.calculate_speed]
  simp only [j2_ts, j3_ts]
  rw [if_neg (by norm_num), dJ23]
  norm_num

theorem jStrictStep : App.pass2Step 150 100 j1 j2 j3 = none := by
  rw [App.pass2Step, if_neg]
  rintro (hs | hj)
  · rcases hs with hs | hs
    · rw [jStrictSpeedTo] at hs
      rw [EReal.coe_lt_coe_iff] at hs
      nlinarith [pi_bounds.1, pi_bounds.2]
    · rw [jStrictSpeedFrom] at hs
      rw [EReal.coe_lt_coe_iff] at hs
      norm_num at hs
  · rcases hj with ⟨-, h2, -⟩ | ⟨-, h2, -⟩ | ⟨-, h2, -⟩
    · rw [App.max_jump_dt_sec] at h2
      norm_num at h2
    · rw [App.max_jump_dt_sec] at h2
      norm_num at h2
    · rw [dJ23] at h2
      norm_num at h2

theorem jStrictRun : App.detect_outliers [j1, j2, j3] 150 100 = [] := by
  norm_num [App.detect_outliers, sortPts, List.insertionSort, List.orderedInsert,
    pass1, pass1Aux, App.pass2, jStrictStep, App.pass3, App.sortByConfDesc,
    App.sortByPointId, App.pass3Step]

/-! ## Concrete input: three equal timestamps among five co-located points

Pass 1 flags points 3 and 4 (both 0.9).  Pass 3 accepts point 3 first and,
because 0.9 ≥ 0.85, marks its neighbors 2 and 4 as artifacts, so the equally
flagged point 4 is suppressed and never reaches the output. -/

def g1 : GpsPoint := ⟨1, 0, 0, 0⟩
def g2 : GpsPoint := ⟨2, 0, 0, 5⟩
def g3 : GpsPoint := ⟨3, 0, 0, 5⟩
def g4 : GpsPoint := ⟨4, 0, 0, 5⟩
def g5 : GpsPoint := ⟨5, 0, 0, 10⟩

theorem gSorted : sortPts [g1, g2, g3, g4, g5] = [g1, g2, g3, g4, g5] := by
  norm_num [sortPts, List.insertionSort, List.orderedInsert, g1, g2, g3, g4, g5]

theorem gRun : App.detect_outliers [g1, g2, g3, g4, g5] 30 500 =
    [add_outlier g3 (some g2) (some g4) "non_increasing_timestamp"
      (DetectionDetails.pass1 ⟨5, 5⟩) 0.9] := by
  norm_num [App.detect_outliers, sortPts, List.insertionSort, List.orderedInsert,
    pass1, pass1Aux, App.pass2, App.pass2Step, App.speedCond, App.speed_to,
    App.speed_from, App.calculate_speed, App.jumpCond, App.spikeCond,
    App.max_jump_dt_sec, App.pass2Confidence, App.distance_factor,
    App.detour_factor, App.speed_factor, App.max_req_speed, App.pointDist_same,
    pyTrunc, App.pass3, App.sortByConfDesc, App.sortByPointId, App.pass3Step,
    App.truthyId, g1, g2, g3, g4, g5]

/-! ## Concrete input: a strong detection whose previous neighbor has id 0

Point id 9 is flagged by Pass 1 with confidence 0.9; its previous neighbor
has id 0.  Because `if prev_id:` is false for 0 in Python, id 0 is not
marked as a neighbor artifact, and the weaker speed detection of point 0
stays in the final output. -/

def e1 : GpsPoint := ⟨3, 0, 0, 0⟩
def e2 : GpsPoint := ⟨0, 0, 0, 5⟩
def e3 : GpsPoint := ⟨9, 0, 0, 5⟩
def e4 : GpsPoint := ⟨2, 0, 0, 10⟩

theorem eRun : App.detect_outliers [e1, e2, e3, e4] 30 500 =
    [add_outlier e2 (some e1) (some e3) "speed_outlier"
      (DetectionDetails.appPass2 (App.pass2Details 30 500 e1 e2 e3)) 0,
     add_outlier e3 (some e2) (some e4) "non_increasing_timestamp"
      (DetectionDetails.pass1 ⟨5, 5⟩) 0.9] := by
  norm_num [App.detect_outliers, sortPts, List.insertionSort, List.orderedInsert,
    pass1, pass1Aux, App.pass2, App.pass2Step, App.speedCond, App.speed_to,
    App.speed_from, App.calculate_speed, App.jumpCond, App.spikeCond,
    App.max_jump_dt_sec, App.pass2Confidence, App.distance_factor,
    App.detour_factor, App.speed_factor, App.max_req_speed, App.pointDist_same,
    pyTrunc, App.pass3, App.sortByConfDesc, App.sortByPointId, App.pass3Step,
    App.truthyId, e1, e2, e3, e4]

/-! ## Bounds on the Pass-2 factors and confidence (App module) -/

theorem App.distance_factor_le_one (md : ℝ) (p c n : GpsPoint) :
    App.distance_factor md p c n ≤ 1 := min_le_left _ _

theorem App.detour_factor_le_one (p c n : GpsPoint) :
    App.detour_factor p c n ≤ 1 := min_le_left _ _

theorem App.speed_factor_le_one (ms : ℝ) (p c n : GpsPoint) :
    App.speed_factor ms p c n ≤ 1 := by
  rw [App.speed_factor]
  split_ifs
  · norm_num
  · exact min_le_left _ _

theorem App.base_confidence_le_one (ms md : ℝ) (p c n : GpsPoint) :
    0.25 * App.distance_factor md p c n + 0.35 * App.detour_factor p c n +
      0.40 * App.speed_factor ms p c n ≤ 1 := by
  have h1 := App.distance_factor_le_one md p c n
  have h2 := App.detour_factor_le_one p c n
  have h3 := App.speed_factor_le_one ms p c n
  nlinarith

theorem App.pass2Confidence_le_one (ms md : ℝ) (p c n : GpsPoint) :
    App.pass2Confidence ms md p c n ≤ 1 := by
  have hb := App.base_confidence_le_one ms md p c n
  rw [App.pass2Confidence]
  split_ifs <;>
    first
      | exact max_le (max_le hb (by norm_num)) (by norm_num)
      | exact max_le hb (by norm_num)
      | exact hb

theorem App.pass2Confidence_jump_detour (ms md : ℝ) (p c n : GpsPoint)
    (h1 : App.jumpCond md p c n) (h2 : (0.8 : ℝ) < App.detour_factor p c n) :
    0.85 ≤ App.pass2Confidence ms md p c n := by
  simp only [App.pass2Confidence]
  by_cases ho : App.jumpCond md p c n ∧
      ((ms * 2 : ℝ) : EReal) < App.max_req_speed p c n
  · rw [if_pos ho, if_pos ⟨h1, h2⟩]
    exact le_max_of_le_left (le_max_right _ _)
  · rw [if_neg ho, if_pos ⟨h1, h2⟩]
    exact le_max_right _ _

/-- `truthyId` never records the id 0. -/
theorem App.truthyId_not_zero (x : Option ℤ) : (0 : ℤ) ∉ App.truthyId x := by
  cases x with
  | none => simp [App.truthyId]
  | some k =>
    by_cases hk : k = 0
    · simp [App.truthyId, hk]
    · simp only [App.truthyId, if_pos hk, List.mem_singleton]
      exact fun h => hk h.symm

/-! ## Claim C1 -/

/-- C1, counterexample: on the App module's `detect_outliers`, the
concrete meridian input satisfies the spike condition at its middle point but
the single flagged point carries reason `jump_outlier`, not `flying_point`
(the App module never emits `flying_point`). -/
theorem C1_counterexample :
    App.spikeCond 500 sp1 sp2 sp3 ∧
    (App.detect_outliers [sp1, sp2, sp3] 30 500).map
      (fun r => r.detection_reason) = ["jump_outlier"] := by
  refine ⟨spSpike, ?_⟩
  rw [spRun]
  rfl

/-- C1 (amended): the claimed three-way priority `flying_point` /
`speed_outlier` / `jump_outlier` holds for `src/outlier_detector.py`'s Pass 2,
and on a spike input that module outputs `flying_point`; the App module's
Pass 2 has no `flying_point` label and picks `speed_outlier` when the speed
signal fired, else `jump_outlier` (the spike pattern is folded into the jump
signal). -/
theorem C1_amended_label_priority :
    (∀ (ms md : ℝ) (p c n : GpsPoint),
      (Src.pass2Step ms md p c n).map (fun r => r.detection_reason) =
        if Src.speedCond ms p c n ∨ Src.jumpCond md p c n ∨ Src.spikeCond md p c n then
          some (if Src.spikeCond md p c n then "flying_point"
                else if Src.speedCond ms p c n then "speed_outlier"
                else "jump_outlier")
        else none) ∧
    (∀ (ms md : ℝ) (p c n : GpsPoint),
      (App.pass2Step ms md p c n).map (fun r => r.detection_reason) =
        if App.speedCond ms p c n ∨ App.jumpCond md p c n then
          some (if App.speedCond ms p c n then "speed_outlier" else "jump_outlier")
        else none) ∧
    (Src.detect_outliers [sp1, sp2, sp3] 150 0.5).map
      (fun r => r.detection_reason) = ["flying_point"] := by
  refine ⟨?_, ?_, ?_⟩
  · intro ms md p c n
    rw [Src.pass2Step]
    by_cases h : Src.speedCond ms p c n ∨ Src.jumpCond md p c n ∨
        Src.spikeCond md p c n
    · rw [if_pos h, if_pos h]
      simp
    · rw [if_neg h, if_neg h]
      rfl
  · intro ms md p c n
    rw [App.pass2Step]
    by_cases h : App.speedCond ms p c n ∨ App.jumpCond md p c n
    · rw [if_pos h, if_pos h]
      simp
    · rw [if_neg h, if_neg h]
      rfl
  · rw [spSrcRun]
    rfl

/-! ## Claim C2 -/

/-- C2, counterexample: the App module's `detect_outliers` leaves a raw
timestamp of 2·10^11 (above the 1e11 millisecond heuristic) untouched: the
flagged output carries timestamp 200000000000, not the seconds value
200000000 the claim requires. -/
theorem C2_counterexample :
    (App.detect_outliers [m1, m2, m3] 30 500).map (fun r => r.timestamp) =
      [200000000000] ∧ (200000000000 : ℤ) ≠ 200000000 :=
  ⟨msAppRun, by norm_num⟩

/-- C2 (amended): only `src/outlier_detector.py` applies the millisecond
heuristic — it truncates the timestamp to an integer and divides by 1000
exactly when that integer exceeds 1e11, keeping smaller values as seconds
(demonstrated end to end on a concrete batch); the App module's
normalization performs type coercions only and never rescales. -/
theorem C2_amended_normalization :
    (∀ t : ℤ, 100000000000 < t →
      Src.normalize_timestamp_to_seconds t = (t : ℝ) / 1000) ∧
    (∀ t : ℤ, t ≤ 100000000000 →
      Src.normalize_timestamp_to_seconds t = (t : ℝ)) ∧
    (∀ p : GpsPoint, App.normalizePoint p = p) ∧
    (Src.detect_outliers [m1, m2, m3] 150 0.5).map (fun r => r.timestamp) =
      [200000000, 200000000] := by
  refine ⟨?_, ?_, fun p => rfl, msSrcRun⟩
  · intro t ht
    rw [Src.normalize_timestamp_to_seconds, if_pos ht]
  · intro t ht
    rw [Src.normalize_timestamp_to_seconds, if_neg (not_lt.mpr ht)]

/-- Witness for C2 (amended) at concrete timestamps. -/
theorem C2_witness :
    Src.normalize_timestamp_to_seconds 200000000000 = 200000000 ∧
    Src.normalize_timestamp_to_seconds 5 = 5 := by
  constructor
  · rw [C2_amended_normalization.1 200000000000 (by norm_num)]
    norm_num
  · rw [C2_amended_normalization.2.1 5 (by norm_num)]
    norm_num

/-! ## Claim C3 -/

/-- C3, counterexample: on the App module, the concrete meridian input
satisfies the spike condition, yet the stored confidence is 31/75 ≈ 0.41,
not raised to at least 0.85 — the App module's 0.85 raise requires
`jump_flag` together with `detour_factor > 0.8`, not the spike signal. -/
theorem C3_counterexample :
    App.spikeCond 500 sp1 sp2 sp3 ∧
    (App.detect_outliers [sp1, sp2, sp3] 30 500).map
      (fun r => r.confidence_score) = [31/75] ∧ (31/75 : ℝ) < 0.85 := by
  refine ⟨spSpike, ?_, by norm_num⟩
  rw [spRun]
  norm_num

/-- C3 (amended): in `src/outlier_detector.py` the flagged confidence is the
clamp of `0.25*distance + 0.35*detour + 0.40*speed`, never lowered below that
weighted sum, raised to at least 0.85 when the spike signal is set and to at
least 0.9 when the jump signal fires with required speed above twice the
threshold; in the App module the 0.85 raise instead requires the jump signal
together with `detour_factor > 0.8`. -/
theorem C3_amended_confidence :
    ∀ (ms md : ℝ) (p c n : GpsPoint) (r : FlaggedPoint),
      (Src.pass2Step ms md p c n = some r →
        r.confidence_score = max 0 (min 1 (Src.pass2Confidence ms md p c n)) ∧
        0.25 * Src.distance_factor md p c n + 0.35 * Src.detour_factor p c n +
          0.40 * Src.speed_factor ms p c n ≤ r.confidence_score ∧
        (Src.spikeCond md p c n → 0.85 ≤ r.confidence_score) ∧
        (Src.jumpCond md p c n →
          ((ms * 2 : ℝ) : EReal) < Src.max_req_speed p c n →
          0.9 ≤ r.confidence_score)) ∧
      (App.pass2Step ms md p c n = some r →
        r.confidence_score = max 0 (min 1 (App.pass2Confidence ms md p c n)) ∧
        (App.jumpCond md p c n → (0.8 : ℝ) < App.detour_factor p c n →
          0.85 ≤ r.confidence_score)) := by
  intro ms md p c n r
  constructor
  · intro hs
    have hr := Src.pass2Step_some_src ms md p c n r hs
    have hle := Src.pass2Confidence_le_one_src ms md p c n
    have hstored : r.confidence_score = max 0 (min 1 (Src.pass2Confidence ms md p c n)) := by
      rw [hr, add_outlier_conf]
    have hmin : min 1 (Src.pass2Confidence ms md p c n) =
        Src.pass2Confidence ms md p c n := min_eq_right hle
    refine ⟨hstored, ?_, ?_, ?_⟩
    · rw [hstored, hmin]
      exact le_trans (Src.pass2Confidence_ge_base ms md p c n) (le_max_right _ _)
    · intro hspike
      rw [hstored, hmin]
      exact le_trans (Src.pass2Confidence_spike ms md p c n hspike) (le_max_right _ _)
    · intro hjump hfast
      rw [hstored, hmin]
      exact le_trans (Src.pass2Confidence_jump ms md p c n hjump hfast) (le_max_right _ _)
  · intro hs
    have hr := App.pass2Step_some ms md p c n r hs
    have hle := App.pass2Confidence_le_one ms md p c n
    have hstored : r.confidence_score = max 0 (min 1 (App.pass2Confidence ms md p c n)) := by
      rw [hr, add_outlier_conf]
    have hmin : min 1 (App.pass2Confidence ms md p c n) =
        App.pass2Confidence ms md p c n := min_eq_right hle
    refine ⟨hstored, ?_⟩
    intro hjump hdet
    rw [hstored, hmin]
    exact le_trans (App.pass2Confidence_jump_detour ms md p c n hjump hdet)
      (le_max_right _ _)

/-- Witness for C3 (amended): on the concrete spike input the Src module
stores a confidence of at least 0.85. -/
theorem C3_witness :
    0.85 ≤ (add_outlier sp2 (some sp1) (some sp3) "flying_point"
      (DetectionDetails.srcPass2 (Src.pass2Details 150 0.5 sp1 sp2 sp3))
      (Src.pass2Confidence 150 0.5 sp1 sp2 sp3)).confidence_score :=
  ((C3_amended_confidence 150 0.5 sp1 sp2 sp3 _).1 spSrcStep).2.2.1 spKmSpike

/-! ## Claim C4 -/

/-- C4, counterexample: a strictly stricter threshold pair (150 < 200 m/s
and 100 < 500 m) yields strictly fewer flagged points on a fixed batch:
the jump time window derived from `max_distance_m` shrinks from 10 s to 2 s
and the 5-second jump stops being flagged. -/
theorem C4_counterexample :
    (150 : ℝ) < 200 ∧ (100 : ℝ) < 500 ∧
    (App.detect_outliers [j1, j2, j3] 150 100).length <
      (App.detect_outliers [j1, j2, j3] 200 500).length := by
  refine ⟨by norm_num, by norm_num, ?_⟩
  rw [jStrictRun, jLooseRun]
  norm_num

/-- C4 (amended): monotonicity holds for the speed threshold alone in the
Src module (which has no Pass 3 and whose jump window does not depend on the
thresholds): with the distance threshold held fixed, lowering `max_speed`
never decreases the number of detections. -/
theorem C4_amended_speed_monotone :
    ∀ (pts : List GpsPoint) (md ms msStrict : ℝ), msStrict ≤ ms →
      (Src.detect_outliers pts ms md).length ≤
        (Src.detect_outliers pts msStrict md).length := by
  intro pts md ms msStrict h
  simp only [Src.detect_outliers]
  by_cases h3 : pts.length < 3
  · rw [if_pos h3, if_pos h3]
  · rw [if_neg h3, if_neg h3]
    simp only [List.length_append]
    exact Nat.add_le_add le_rfl (Src.pass2_len_mono h md _)

/-- Witness for C4 (amended) at a concrete batch and threshold pair. -/
theorem C4_witness :
    (Src.detect_outliers [g1, g2, g5] 150 0.5).length ≤
      (Src.detect_outliers [g1, g2, g5] 100 0.5).length :=
  C4_amended_speed_monotone [g1, g2, g5] 0.5 150 100 (by norm_num)

/-! ## Claim C5 -/

/-- C5, counterexample: a batch of five points whose sorted order contains
the adjacent non-increasing pair (g3, g4), yet point 4 — the later point of
that pair — is absent from the final output: Pass 3 accepted point 3 (also
0.9) first and marked its neighbor 4 as an artifact. -/
theorem C5_counterexample :
    3 ≤ ([g1, g2, g3, g4, g5] : List GpsPoint).length ∧
    sortPts [g1, g2, g3, g4, g5] = [g1, g2, g3, g4, g5] ∧
    g4.timestamp ≤ g3.timestamp ∧
    (App.detect_outliers [g1, g2, g3, g4, g5] 30 500).map
      (fun r => r.point_id) = [3] ∧
    g4.id ∉ (App.detect_outliers [g1, g2, g3, g4, g5] 30 500).map
      (fun r => r.point_id) := by
  refine ⟨by norm_num, gSorted, by norm_num [g3, g4], ?_, ?_⟩
  · rw [gRun]
    norm_num [g3]
  · rw [gRun]
    norm_num [g3, g4]

/-- C5 (amended): every adjacent sorted pair with a non-increasing timestamp
makes Pass 1 emit, for the later point, a candidate with reason
`non_increasing_timestamp`, confidence exactly 0.9 (before the clamp, which
leaves 0.9 unchanged) and details recording both truncated timestamps; the
candidate reaches the final output only if Pass 3 does not suppress it. -/
theorem C5_amended_pass1_flag :
    ∀ (l1 : List GpsPoint) (prev cur : GpsPoint) (l2 : List GpsPoint),
      cur.timestamp ≤ prev.timestamp →
      add_outlier cur (some prev) l2.head? "non_increasing_timestamp"
        (DetectionDetails.pass1 ⟨pyTrunc prev.timestamp, pyTrunc cur.timestamp⟩) 0.9
        ∈ pass1 (l1 ++ prev :: cur :: l2) := by
  intro l1 prev cur l2 h
  cases l1 with
  | nil =>
    rw [List.nil_append]
    simp only [pass1]
    rw [pass1Aux, List.mem_append]
    left
    rw [if_pos h]
    exact List.mem_singleton.mpr rfl
  | cons x xs =>
    rw [List.cons_append]
    simp only [pass1]
    exact pass1Aux_mem_pair prev cur l2 h x xs

/-- Witness for C5 (amended) on the concrete duplicate-timestamp trio. -/
theorem C5_witness :
    add_outlier w2 (some w1) [w3].head? "non_increasing_timestamp"
      (DetectionDetails.pass1 ⟨pyTrunc w1.timestamp, pyTrunc w2.timestamp⟩) 0.9
      ∈ pass1 ([] ++ w1 :: w2 :: [w3]) :=
  C5_amended_pass1_flag [] w1 w2 [w3] (by norm_num [w1, w2])

/-! ## Claim C6 -/

/-- C6, counterexample: the strong accepted detection (point 9, confidence
0.9 ≥ 0.85) has `previous_point_id = some 0`, yet the weaker speed candidate
with point id 0 is not rejected — it appears in the final output, because
Python's `if prev_id:` is false for the id 0. -/
theorem C6_counterexample :
    (App.detect_outliers [e1, e2, e3, e4] 30 500).map
      (fun r => r.point_id) = [0, 9] ∧
    (App.detect_outliers [e1, e2, e3, e4] 30 500).map
      (fun r => r.previous_point_id) = [some 3, some 0] ∧
    (App.detect_outliers [e1, e2, e3, e4] 30 500).map
      (fun r => r.confidence_score) = [0, 0.9] ∧
    (App.detect_outliers [e1, e2, e3, e4] 30 500).map
      (fun r => r.detection_reason) = ["speed_outlier", "non_increasing_timestamp"] := by
  refine ⟨?_, ?_, ?_, ?_⟩ <;>
    · rw [eRun]
      norm_num [e1, e2, e3, e4]

/-- C6 (amended): an accepted candidate with confidence at least 0.85 adds
to the suppression set exactly its truthy neighbor ids — those that are
non-null *and nonzero*; a later candidate whose point id is in the set is
dropped; the id 0 is never added. -/
theorem C6_amended_truthy_suppression :
    ∀ (st : App.Pass3State) (o : FlaggedPoint) (k : ℤ),
      ((App.pass3Step st o).filtered = st.filtered ++ [o] →
        0.85 ≤ o.confidence_score →
        ((o.previous_point_id = some k → k ≠ 0 →
            k ∈ (App.pass3Step st o).neighbor_ids) ∧
         (o.next_point_id = some k → k ≠ 0 →
            k ∈ (App.pass3Step st o).neighbor_ids))) ∧
      (o.point_id ∈ st.neighbor_ids → App.pass3Step st o = st) ∧
      (0 ∉ st.neighbor_ids → 0 ∉ (App.pass3Step st o).neighbor_ids) := by
  intro st o k
  refine ⟨?_, ?_, ?_⟩
  · intro hacc hconf
    rw [App.pass3Step] at hacc ⊢
    by_cases h1 : o.point_id ∈ st.outlier_ids
    · rw [if_pos h1] at hacc
      simp at hacc
    · rw [if_neg h1] at hacc ⊢
      by_cases h2 : o.point_id ∈ st.neighbor_ids
      · rw [if_pos h2] at hacc
        simp at hacc
      · rw [if_neg h2] at hacc ⊢
        by_cases h3 : (st.filtered.any fun other =>
            (o.previous_point_id == some other.point_id ||
              o.next_point_id == some other.point_id) &&
            o.detection_reason == other.detection_reason &&
            decide (o.confidence_score ≤ other.confidence_score + 0.05)) = true
        · rw [if_pos h3] at hacc
          simp at hacc
        · rw [if_neg h3] at hacc ⊢
          constructor
          · intro hp hk
            show k ∈ (if 0.85 ≤ o.confidence_score then
              App.truthyId o.previous_point_id ++ App.truthyId o.next_point_id ++
                st.neighbor_ids else st.neighbor_ids)
            rw [if_pos hconf, hp]
            simp [App.truthyId, hk]
          · intro hp hk
            show k ∈ (if 0.85 ≤ o.confidence_score then
              App.truthyId o.previous_point_id ++ App.truthyId o.next_point_id ++
                st.neighbor_ids else st.neighbor_ids)
            rw [if_pos hconf, hp]
            simp [App.truthyId, hk]
  · intro hmem
    rw [App.pass3Step]
    by_cases h1 : o.point_id ∈ st.outlier_ids
    · rw [if_pos h1]
    · rw [if_neg h1, if_pos hmem]
  · intro hz
    rw [App.pass3Step]
    split_ifs
    any_goals exact hz
    show (0 : ℤ) ∉ App.truthyId o.previous_point_id ++
      App.truthyId o.next_point_id ++ st.neighbor_ids
    simp only [List.mem_append, not_or]
    exact ⟨⟨App.truthyId_not_zero _, App.truthyId_not_zero _⟩, hz⟩

/-- A concrete strong candidate for exercising the Pass-3 marking step. -/
def c6wit : FlaggedPoint :=
  ⟨11, 0, 0, 0, "jump_outlier", DetectionDetails.pass1 ⟨0, 0⟩, 0.9, some 5, some 7⟩

/-- Witness for C6 (amended): accepting the concrete candidate from the empty
state records its nonzero previous neighbor id 5. -/
theorem C6_witness : (5 : ℤ) ∈ (App.pass3Step ⟨[], [], []⟩ c6wit).neighbor_ids :=
  ((C6_amended_truthy_suppression ⟨[], [], []⟩ c6wit 5).1
    (by norm_num [App.pass3Step, c6wit])
    (by norm_num [c6wit])).1 rfl (by norm_num)

/-! ## Claim C7 -/

/-- C7 (confirmed): every flagged point either module outputs carries a
confidence score inside the closed unit interval — both passes clamp through
`add_outlier`, and Pass 3 only filters records. -/
theorem C7_confidence_in_unit_interval :
    ∀ (pts : List GpsPoint) (ms md : ℝ) (r : FlaggedPoint),
      (r ∈ App.detect_outliers pts ms md →
        0 ≤ r.confidence_score ∧ r.confidence_score ≤ 1) ∧
      (r ∈ Src.detect_outliers pts ms md →
        0 ≤ r.confidence_score ∧ r.confidence_score ≤ 1) := by
  intro pts ms md r
  constructor
  · intro h
    simp only [App.detect_outliers] at h
    split_ifs at h with h3
    · simp at h
    · have h2 := App.pass3_sub _ _ h
      rw [List.mem_append] at h2
      rcases h2 with h2 | h2
      · exact pass1_conf _ _ h2
      · exact App.pass2_conf _ _ _ _ h2
  · intro h
    simp only [Src.detect_outliers] at h
    split_ifs at h with h3
    · simp at h
    · rw [List.mem_append] at h
      rcases h with h | h
      · exact pass1_conf _ _ h
      · exact Src.pass2_conf_src _ _ _ _ h

/-- Witness for C7 at the concrete duplicate-timestamp trio's output. -/
theorem C7_witness :
    0 ≤ (add_outlier w2 (some w1) (some w3) "non_increasing_timestamp"
        (DetectionDetails.pass1 ⟨5, 5⟩) 0.9).confidence_score ∧
    (add_outlier w2 (some w1) (some w3) "non_increasing_timestamp"
        (DetectionDetails.pass1 ⟨5, 5⟩) 0.9).confidence_score ≤ 1 :=
  (C7_confidence_in_unit_interval [w1, w2, w3] 30 500 _).1
    (by rw [wRun]; exact List.mem_singleton.mpr rfl)

/-! ## Claim C8 -/

/-- C8 (confirmed): in both modules `calculate_speed` returns positive
infinity (`⊤`) whenever the time delta is non-positive — no division is
attempted — and for a positive delta it returns the haversine distance
divided by the delta (the Src module expresses the delta in hours). -/
theorem C8_nonpositive_dt_speed :
    ∀ p1 p2 : GpsPoint,
      (p2.timestamp - p1.timestamp ≤ 0 →
        App.calculate_speed p1 p2 = ⊤ ∧ Src.calculate_speed p1 p2 = ⊤) ∧
      (0 < p2.timestamp - p1.timestamp →
        App.calculate_speed p1 p2 =
          ((App.pointDist p1 p2 / (p2.timestamp - p1.timestamp) : ℝ) : EReal) ∧
        Src.calculate_speed p1 p2 =
          ((Src.pointDist p1 p2 / ((p2.timestamp - p1.timestamp) / 3600) : ℝ) : EReal)) := by
  intro p1 p2
  constructor
  · intro h
    constructor
    · simp only [App.calculate_speed]
      rw [if_pos h]
    · simp only [Src.calculate_speed]
      rw [if_pos h]
  · intro h
    constructor
    · simp only [App.calculate_speed]
      rw [if_neg (not_le.mpr h)]
    · simp only [Src.calculate_speed]
      rw [if_neg (not_le.mpr h)]

/-- Witness for C8 at concrete points: a zero delta gives `⊤` in both
modules, a positive delta gives the finite quotient. -/
theorem C8_witness :
    (App.calculate_speed w2 w1 = ⊤ ∧ Src.calculate_speed w2 w1 = ⊤) ∧
    App.calculate_speed w2 w3 = ((App.pointDist w2 w3 / 5 : ℝ) : EReal) := by
  constructor
  · exact (C8_nonpositive_dt_speed w2 w1).1 (by norm_num [w1, w2])
  · have h := ((C8_nonpositive_dt_speed w2 w3).2 (by norm_num [w2, w3])).1
    rw [h]
    norm_num [w2, w3]

/-! ## Claim C9 -/

/-- C9 (confirmed): both modules return the empty list for any batch of
fewer than 3 points, whatever the field values and thresholds. -/
theorem C9_short_batch_empty :
    ∀ (pts : List GpsPoint) (a b c d : ℝ), pts.length < 3 →
      App.detect_outliers pts a b = [] ∧ Src.detect_outliers pts c d = [] := by
  intro pts a b c d h
  constructor
  · rw [App.detect_outliers, if_pos h]
  · rw [Src.detect_outliers, if_pos h]

/-- Witness for C9 on the empty batch. -/
theorem C9_witness :
    App.detect_outliers [] 50 50 = [] ∧ Src.detect_outliers [] 150 0.5 = [] :=
  C9_short_batch_empty [] 50 50 150 0.5 (by norm_num)

/-! ## Claim C10 -/

/-- C10 (confirmed): every record the App module outputs has a non-null
`previous_point_id`, and a null `next_point_id` occurs only on a Pass-1
record whose flagged point is the last of the sorted sequence. -/
theorem C10_neighbor_id_invariant :
    ∀ (pts : List GpsPoint) (ms md : ℝ) (r : FlaggedPoint),
      r ∈ App.detect_outliers pts ms md →
      r.previous_point_id ≠ none ∧
      (r.next_point_id = none →
        r.detection_reason = "non_increasing_timestamp" ∧
        (sortPts (pts.map App.normalizePoint)).getLast?.map (fun q => q.id) =
          some r.point_id) := by
  intro pts ms md r h
  simp only [App.detect_outliers] at h
  split_ifs at h with h3
  · simp at h
  · have h2 := App.pass3_sub _ _ h
    rw [List.mem_append] at h2
    rcases h2 with h2 | h2
    · cases hl : sortPts (pts.map App.normalizePoint) with
      | nil =>
        rw [hl] at h2
        simp [pass1] at h2
      | cons p rest =>
        rw [hl] at h2
        simp only [pass1] at h2
        obtain ⟨cur, prev, nx, hshape, hlast⟩ := pass1Aux_shape r p rest h2
        constructor
        · rw [hshape, add_outlier_prev]
          simp
        · intro hnone
          rw [hshape, add_outlier_next] at hnone
          have hnx : nx = none := Option.map_eq_none'.mp hnone
          refine ⟨by rw [hshape, add_outlier_reason], ?_⟩
          rw [hshape, add_outlier_point_id]
          exact hlast hnx
    · obtain ⟨p, c, n, hs⟩ := App.pass2_shape ms md r _ h2
      have hr := App.pass2Step_some ms md p c n r hs
      constructor
      · rw [hr, add_outlier_prev]
        simp
      · intro hnone
        rw [hr, add_outlier_next] at hnone
        simp at hnone

/-- Witness for C10 at the concrete duplicate-timestamp trio's output. -/
theorem C10_witness :
    (add_outlier w2 (some w1) (some w3) "non_increasing_timestamp"
      (DetectionDetails.pass1 ⟨5, 5⟩) 0.9).previous_point_id ≠ none :=
  ((C10_neighbor_id_invariant [w1, w2, w3] 30 500 _)
    (by rw [wRun]; exact List.mem_singleton.mpr rfl)).1
